import Mathlib

/-!
Shallow embedding of `src/index.js` of the bp_xtrtil Matrix client wrapper.

The repository is a thin layer over the external matrix-js-sdk.  Each
JavaScript function is embedded as a pure Lean function: the results of
awaited external SDK calls (login, setRoomEncryption, sendEvent, ...) are
passed in as explicit `Except`-valued parameters, and the externally visible
calls the function makes are returned as an explicit action trace.  A promise
that resolves is `Except.ok`; a promise that rejects, or a thrown error, is
`Except.error`.
-/

namespace BpXtrtil

/-- Content of a Matrix event, as used by the source (only `body` and
`msgtype` are ever read or written). -/
structure EventContent where
  body : String
  msgtype : String
deriving Repr, DecidableEq

/-- The slice of a matrix-js-sdk event object that the source reads:
`event.getType()`, `event.getContent()`, `event.getRoomId()` and
`event.isDecryptionFailure()`. -/
structure MatrixEvent where
  type : String
  content : EventContent
  roomId : String
  decryptionFailureFlag : Bool
deriving Repr, DecidableEq

/-- Observable behaviour of one invocation of an event handler registered
with `client.on(...)`: it can throw an uncaught error, deliver a message
body (by resolving a promise or invoking the callback), or return without
doing anything. -/
inductive HandlerOutcome where
  | thrown (message : String)
  | delivered (body : String)
  | ignored
deriving Repr, DecidableEq

/-- Embedding of the "Event.decrypted" handler registered by
`getMessageEncrypted` (src/index.js lines 174-181): on a decryption-failure
event of type "m.room.encrypted" it throws `new Error("Failed to decrypt
message: ", event)`; on an event of type "m.room.message" it resolves the
promise with the content body; otherwise it returns. -/
def getMessageEncrypted.onDecrypted (event : MatrixEvent) : HandlerOutcome :=
  if event.type = "m.room.encrypted" ∧ event.decryptionFailureFlag then
    HandlerOutcome.thrown "Failed to decrypt message: "
  else if event.type = "m.room.message" then
    HandlerOutcome.delivered event.content.body
  else
    HandlerOutcome.ignored

/-- Embedding of the "Event.decryption_failure" handler registered by
`getMessageEncrypted` (src/index.js lines 188-191): it logs the error and
rejects the promise returned to the caller. `Except.error` is the rejected
promise. -/
def getMessageEncrypted.onDecryptionFailure (err : String) : Except String String :=
  Except.error err

/-- Embedding of the "Event.decrypted" handler registered by
`messageListenerEncrypted` (src/index.js lines 239-248): events from other
rooms are ignored; a decryption-failure event of type "m.room.encrypted"
throws; an event of type "m.room.message" invokes the callback with the
content body. -/
def messageListenerEncrypted.onDecrypted (roomId : String) (event : MatrixEvent) :
    HandlerOutcome :=
  if event.roomId = roomId then
    if event.type = "m.room.encrypted" ∧ event.decryptionFailureFlag then
      HandlerOutcome.thrown "Failed to decrypt message: "
    else if event.type = "m.room.message" then
      HandlerOutcome.delivered event.content.body
    else
      HandlerOutcome.ignored
  else
    HandlerOutcome.ignored

/-- Embedding of the "Room.timeline" handler registered by `getMessage`
(src/index.js lines 141-150): pagination replay and non-message events are
filtered, otherwise the promise resolves with the content body.
`toStart` is the handler argument `toStartOfTimeline`. -/
def getMessage.onTimeline (event : MatrixEvent) (toStart : Bool) : HandlerOutcome :=
  if toStart then
    HandlerOutcome.ignored
  else if event.type ≠ "m.room.message" then
    HandlerOutcome.ignored
  else
    HandlerOutcome.delivered event.content.body

/-- Embedding of the "Room.timeline" handler registered by `messageListener`
(src/index.js lines 213-225): pagination replay and non-message events are
filtered; a message event whose room differs from the registered `roomId`
throws; otherwise the callback is invoked with the content body.
`timelineRoomId` is the `roomId` of the handler argument `room`. -/
def messageListener.onTimeline (roomId : String) (event : MatrixEvent)
    (timelineRoomId : String) (toStart : Bool) : HandlerOutcome :=
  if toStart then
    HandlerOutcome.ignored
  else if event.type ≠ "m.room.message" then
    HandlerOutcome.ignored
  else if roomId ≠ timelineRoomId then
    HandlerOutcome.thrown "Error: wrong room"
  else
    HandlerOutcome.delivered event.content.body

/-- The slice of a matrix-js-sdk RoomMember object read by the
"RoomMember.membership" handler in `runClient`. -/
structure RoomMember where
  membership : String
  userId : String
  roomId : String
deriving Repr, DecidableEq

/-- Embedding of the "RoomMember.membership" handler registered by
`runClient` (src/index.js lines 61-67): `some r` means the client calls
`client.joinRoom(r)`, `none` means it does nothing. `ownUserId` is
`client.getUserId()`. -/
def onRoomMemberMembership (ownUserId : String) (member : RoomMember) :
    Option String :=
  if member.membership = "invite" ∧ member.userId = ownUserId then
    some member.roomId
  else
    none

/-- Room encryption configuration object, as passed to
`client.setRoomEncryption`. -/
structure RoomPolicy where
  algorithm : String
deriving Repr, DecidableEq

/-- The constant configuration used at every `setRoomEncryption` call site of
the source (src/index.js lines 112-114, 169-171, 236-238). -/
def megolmConfig : RoomPolicy :=
  { algorithm := "m.megolm.v1.aes-sha2" }

/-- A privileged state-change request proxied to the external room-state
API. -/
inductive StateChangeRequest where
  | setState (roomId : String) (config : RoomPolicy)
deriving Repr, DecidableEq

/-- Modelled from the spec: the implementation of `client.setRoomEncryption`
lives in the external matrix-js-sdk, not under src/ (the repository only
calls it).  The EncryptionGate contract for it reads: "ensureRoomEncrypted
(roomId) -> RoomEncryptionPolicy — idempotent: if the room state already
declares an algorithm, adopt it; otherwise, applying encryption is itself a
privileged state-change request proxied to the external room-state API."
Returns the adopted policy, the new room state, and the emitted
state-change requests. -/
def ensureRoomEncrypted (roomId : String) (state : Option RoomPolicy)
    (config : RoomPolicy) : RoomPolicy × Option RoomPolicy × List StateChangeRequest :=
  match state with
  | some p => (p, some p, [])
  | none => (config, some config, [StateChangeRequest.setState roomId config])

/-- Embedding of `isUserJoinedInRoom` (src/index.js lines 195-205): throws
when the module-level `client` is not initialized; returns `false` when
`client.getRoom(roomId)` is null; otherwise returns whether the own member
record exists and has membership "join".  `member` is the result of
`room.getMember(client.getUserId())`, `none` when null. -/
def isUserJoinedInRoom (clientInitialized : Bool) (roomExists : Bool)
    (member : Option RoomMember) : Except String Bool :=
  if ¬ clientInitialized then
    Except.error "Client is not initialized."
  else if ¬ roomExists then
    Except.ok false
  else
    Except.ok (match member with
      | some m => m.membership = "join"
      | none => false)

/-- External SDK calls made by `sendEncryptedMessage`. -/
inductive SendAction where
  | setRoomEncryption (roomId : String) (config : RoomPolicy)
  | sendEvent (roomId evType body msgtype : String)
deriving Repr, DecidableEq

/-- The try block of `sendEncryptedMessage` (src/index.js lines 109-120):
awaits `isUserJoinedInRoom` (its boolean result is discarded), then
`client.setRoomEncryption` with `megolmConfig`, then `client.sendEvent`
with an "m.room.message" event of msgtype "m.text" whose `body` is the JSON
serialization of the message argument (`message` here stands for that
string).  `setEncResult` and `sendEventResult` are the outcomes of the two
awaited external calls.  Returns the outcome of the block together with the
external calls attempted. -/
def sendEncryptedMessageTry (clientInitialized roomExists : Bool)
    (member : Option RoomMember) (setEncResult : Except String Unit)
    (sendEventResult : Except String String) (roomId message : String) :
    Except String Unit × List SendAction :=
  match isUserJoinedInRoom clientInitialized roomExists member with
  | Except.error e => (Except.error e, [])
  | Except.ok _joined =>
    match setEncResult with
    | Except.error e => (Except.error e, [SendAction.setRoomEncryption roomId megolmConfig])
    | Except.ok _ =>
      match sendEventResult with
      | Except.error e =>
          (Except.error e,
           [SendAction.setRoomEncryption roomId megolmConfig,
            SendAction.sendEvent roomId "m.room.message" message "m.text"])
      | Except.ok _eventId =>
          (Except.ok (),
           [SendAction.setRoomEncryption roomId megolmConfig,
            SendAction.sendEvent roomId "m.room.message" message "m.text"])

/-- Embedding of `sendEncryptedMessage` (src/index.js lines 108-124): the
whole body is wrapped in try/catch whose catch clause only logs
("Error sending encrypted message:"), so the promise returned to the caller
always resolves with undefined. -/
def sendEncryptedMessage (clientInitialized roomExists : Bool)
    (member : Option RoomMember) (setEncResult : Except String Unit)
    (sendEventResult : Except String String) (roomId message : String) :
    Except String Unit × List SendAction :=
  let r := sendEncryptedMessageTry clientInitialized roomExists member
    setEncResult sendEventResult roomId message
  (match r.1 with
   | Except.ok _ => Except.ok ()
   | Except.error _e => Except.ok (), r.2)

/-- The power-levels state content read by `inviteUser`
(`powerLevels.invite`). -/
structure PowerLevelsContent where
  invite : Int
deriving Repr, DecidableEq

/-- Embedding of `inviteUser` (src/index.js lines 262-269), after the two
awaits succeeded: `powerLevels` is the "m.room.power_levels" state content
and `myPowerLevel` the result of `getMyPowerLevel(roomId)`.  Throws when
`powerLevels.invite > myPowerLevel`; otherwise calls
`client.invite(roomId, userId)`, returned as the ok value. -/
def inviteUser (roomId userId : String) (powerLevels : PowerLevelsContent)
    (myPowerLevel : Int) : Except String (String × String) :=
  if powerLevels.invite > myPowerLevel then
    Except.error "Error: You dont have permission to invite users"
  else
    Except.ok (roomId, userId)

/-- Embedding of `getMyPowerLevel` (src/index.js lines 278-287):
`roomInitialSync` may reject (`syncResult`), then the own member record of
the room is read and its `powerLevel` returned; any error is rethrown with
its message. -/
def getMyPowerLevel (syncResult : Except String Unit)
    (myPowerLevel : Int) : Except String Int :=
  match syncResult with
  | Except.error e => Except.error e
  | Except.ok _ => Except.ok myPowerLevel

/-- The credential record selected by `runClient` from the file or the
credentials object (src/index.js line 44), already validated to hold the
three required properties. -/
structure Credentials where
  username : String
  password : String
  homeserverUrl : String
deriving Repr, DecidableEq

/-- Result of a password login against the homeserver, as returned by
`getCredentialsWithPassword` and (as `response.access_token`) by
`client.login("m.login.password", ...)`. -/
structure LoginResult where
  accessToken : String
  userId : String
  deviceId : String
deriving Repr, DecidableEq

/-- The object returned by the `authUploadDeviceSigningKeys` callback
(src/index.js lines 90-94). -/
structure AuthUpload where
  user_id : String
  device_id : String
  access_token : String
deriving Repr, DecidableEq

/-- The flag values a freshly created SDK client starts with, before
`runClient` sets them explicitly (they belong to the external SDK, so they
are inputs of the model). -/
structure SdkDefaults where
  blacklistUnverifiedDevices : Bool
  errorOnUnknownDevices : Bool
deriving Repr, DecidableEq

/-- The module-level `client` state as far as the source configures it:
the `createClient` options of src/index.js lines 48-58 plus the two global
trust flags set on lines 70-71. -/
structure ClientState where
  baseUrl : String
  accessToken : String
  userId : String
  deviceId : String
  ignore_unknown_devices : Bool
  blacklistUnverifiedDevices : Bool
  errorOnUnknownDevices : Bool
deriving Repr, DecidableEq

/-- External calls made by `runClient`, in order. -/
inductive RunAction where
  | authenticate (username homeserverUrl : String)
  | createClient
  | initCrypto
  | registerMembershipHandler
  | setGlobalBlacklistUnverifiedDevices (b : Bool)
  | setGlobalErrorOnUnknownDevices (b : Bool)
  | startClient (initialSyncLimit : Nat)
  | loginPassword (username : String)
  | bootstrapCrossSigning (upload : AuthUpload)
deriving Repr, DecidableEq

/-- Embedding of the `authUploadDeviceSigningKeys` callback passed to
`client.bootstrapCrossSigning` (src/index.js lines 80-95): it performs a
fresh `client.login("m.login.password", ...)` with the stored username and
password and returns the user id, device id and the access token of that
login response (`freshLogin`), not the cached session token. -/
def authUploadDeviceSigningKeys (ownUserId ownDeviceId : String)
    (freshLogin : LoginResult) : AuthUpload :=
  { user_id := ownUserId
    device_id := ownDeviceId
    access_token := freshLogin.accessToken }

/-- Embedding of the try/catch body of `runClient` (src/index.js lines
46-100), starting after credential selection.  Inputs standing for awaited
external results: `authResult` is `getCredentialsWithPassword`;
`cryptoEnabled` is `client.isCryptoEnabled()`; `crossSigningId` is
`client.getCrossSigningId()` (the pre-existing cross-signing identity, if
any); `freshLogin` is the response of the `client.login` call inside
`authUploadDeviceSigningKeys`.  The catch clause only logs `err.message`,
so the promise returned to the caller always resolves; the model returns
that caller-visible outcome, the trace of external calls, and the
module-level client state (none when creation never happened). -/
def runClient (data : Credentials) (authResult : Except String LoginResult)
    (sdkDefaults : SdkDefaults) (cryptoEnabled : Bool)
    (crossSigningId : Option String) (freshLogin : LoginResult) :
    Except String Unit × List RunAction × Option ClientState :=
  match authResult with
  | Except.error _e =>
      (Except.ok (), [RunAction.authenticate data.username data.homeserverUrl], none)
  | Except.ok lr =>
      let created : ClientState :=
        { baseUrl := data.homeserverUrl
          accessToken := lr.accessToken
          userId := lr.userId
          deviceId := lr.deviceId
          ignore_unknown_devices := true
          blacklistUnverifiedDevices := sdkDefaults.blacklistUnverifiedDevices
          errorOnUnknownDevices := sdkDefaults.errorOnUnknownDevices }
      let afterFlags : ClientState :=
        { created with blacklistUnverifiedDevices := false, errorOnUnknownDevices := false }
      let startActs : List RunAction :=
        if cryptoEnabled then [RunAction.startClient 1] else []
      let bootActs : List RunAction :=
        match crossSigningId with
        | some _ => []
        | none =>
            [RunAction.loginPassword data.username,
             RunAction.bootstrapCrossSigning
               (authUploadDeviceSigningKeys lr.userId lr.deviceId freshLogin)]
      (Except.ok (),
       [RunAction.authenticate data.username data.homeserverUrl,
        RunAction.createClient,
        RunAction.initCrypto,
        RunAction.registerMembershipHandler,
        RunAction.setGlobalBlacklistUnverifiedDevices false,
        RunAction.setGlobalErrorOnUnknownDevices false] ++ startActs ++ bootActs,
       some afterFlags)

/-! Theorems settling the claims. -/

/-- Claim C1, counterexample to the claim as stated: a decryption-failure
event of type "m.room.encrypted" makes the "Event.decrypted" handlers of
both `getMessageEncrypted` and `messageListenerEncrypted` throw an Error
from inside the handler, instead of producing a typed Failed outcome. -/
theorem C1_counterexample :
    getMessageEncrypted.onDecrypted
        { type := "m.room.encrypted", content := { body := "x", msgtype := "m.text" },
          roomId := "!room:hs", decryptionFailureFlag := true } =
      HandlerOutcome.thrown "Failed to decrypt message: " ∧
    messageListenerEncrypted.onDecrypted "!room:hs"
        { type := "m.room.encrypted", content := { body := "x", msgtype := "m.text" },
          roomId := "!room:hs", decryptionFailureFlag := true } =
      HandlerOutcome.thrown "Failed to decrypt message: " := by
  constructor <;> rfl

/-- Claim C1, amended: every decryption-failure event of type
"m.room.encrypted" causes both encrypted listeners to throw an uncaught
Error from inside their "Event.decrypted" handler; only the separate
"Event.decryption_failure" listener registered by `getMessageEncrypted`
surfaces a decryption failure to the caller as a typed outcome, by
rejecting the returned promise. -/
theorem C1_amended (event : MatrixEvent)
    (h : event.type = "m.room.encrypted" ∧ event.decryptionFailureFlag = true) :
    getMessageEncrypted.onDecrypted event =
      HandlerOutcome.thrown "Failed to decrypt message: " ∧
    messageListenerEncrypted.onDecrypted event.roomId event =
      HandlerOutcome.thrown "Failed to decrypt message: " ∧
    (∀ err, getMessageEncrypted.onDecryptionFailure err = Except.error err) := by
  obtain ⟨h1, h2⟩ := h
  refine ⟨?_, ?_, fun err => rfl⟩ <;>
    simp [getMessageEncrypted.onDecrypted, messageListenerEncrypted.onDecrypted, h1, h2]

/-- Claim C1, witness for the amended theorem at a concrete event. -/
theorem C1_witness :
    getMessageEncrypted.onDecrypted
        { type := "m.room.encrypted", content := { body := "c", msgtype := "m.text" },
          roomId := "!w:hs", decryptionFailureFlag := true } =
      HandlerOutcome.thrown "Failed to decrypt message: " ∧
    messageListenerEncrypted.onDecrypted "!w:hs"
        { type := "m.room.encrypted", content := { body := "c", msgtype := "m.text" },
          roomId := "!w:hs", decryptionFailureFlag := true } =
      HandlerOutcome.thrown "Failed to decrypt message: " ∧
    getMessageEncrypted.onDecryptionFailure "MegolmDecryptionError" =
      Except.error "MegolmDecryptionError" :=
  ⟨(C1_amended _ ⟨rfl, rfl⟩).1,
   (C1_amended
      { type := "m.room.encrypted", content := { body := "c", msgtype := "m.text" },
        roomId := "!w:hs", decryptionFailureFlag := true } ⟨rfl, rfl⟩).2.1,
   (C1_amended
      { type := "m.room.encrypted", content := { body := "c", msgtype := "m.text" },
        roomId := "!w:hs", decryptionFailureFlag := true } ⟨rfl, rfl⟩).2.2
     "MegolmDecryptionError"⟩

/-- Claim C2, counterexample to the claim as stated: when the send is
blocked (the sendEvent call rejects with a policy error), the promise
returned by `sendEncryptedMessage` still resolves successfully, so no
PolicyViolation reaches the caller. -/
theorem C2_counterexample :
    (sendEncryptedMessage true true
        (some { membership := "join", userId := "@alice:hs", roomId := "!r:hs" })
        (Except.ok ())
        (Except.error "PolicyViolation: blocked on unverified device")
        "!r:hs" "hello").1 = Except.ok () := by
  rfl

/-- Claim C2, amended: whatever the outcomes of the membership check, the
setRoomEncryption call and the sendEvent call, `sendEncryptedMessage`
catches every error in its try/catch, only logs it, and the promise
returned to the caller always resolves; no failure is surfaced. -/
theorem C2_amended (clientInitialized roomExists : Bool) (member : Option RoomMember)
    (setEncResult : Except String Unit) (sendEventResult : Except String String)
    (roomId message : String) :
    (sendEncryptedMessage clientInitialized roomExists member setEncResult
        sendEventResult roomId message).1 = Except.ok () := by
  simp only [sendEncryptedMessage]
  cases h : (sendEncryptedMessageTry clientInitialized roomExists member setEncResult
      sendEventResult roomId message).1 <;> simp [h]

/-- Claim C3: the cross-signing bootstrap in `runClient` is idempotent
(an existing cross-signing identity skips both the bootstrap and the
re-login entirely), and when it does run, the uploaded device signing keys
carry the access token of the fresh password login performed inside
`authUploadDeviceSigningKeys`, not the cached session token. -/
theorem C3_bootstrap (data : Credentials) (lr : LoginResult) (d : SdkDefaults)
    (ce : Bool) (i : String) (fresh : LoginResult) :
    (∀ u : AuthUpload,
      RunAction.bootstrapCrossSigning u ∉
        (runClient data (Except.ok lr) d ce (some i) fresh).2.1) ∧
    (∀ name : String,
      RunAction.loginPassword name ∉
        (runClient data (Except.ok lr) d ce (some i) fresh).2.1) ∧
    (∀ u : AuthUpload,
      RunAction.bootstrapCrossSigning u ∈
          (runClient data (Except.ok lr) d ce none fresh).2.1 →
        u.access_token = fresh.accessToken) ∧
    RunAction.loginPassword data.username ∈
      (runClient data (Except.ok lr) d ce none fresh).2.1 := by
  refine ⟨fun u => ?_, fun name => ?_, fun u hu => ?_, ?_⟩
  · cases ce <;> simp [runClient]
  · cases ce <;> simp [runClient]
  · cases ce <;> simp [runClient, authUploadDeviceSigningKeys] at hu <;> simp [hu]
  · cases ce <;> simp [runClient]

/-- Claim C3, witness: the bootstrap path at concrete inputs. -/
theorem C3_witness :
    ({ user_id := "@alice:hs", device_id := "DEV1", access_token := "freshTok" } :
        AuthUpload).access_token = "freshTok" ∧
    RunAction.loginPassword "alice" ∈
      (runClient { username := "alice", password := "pw", homeserverUrl := "https://hs" }
        (Except.ok { accessToken := "cachedTok", userId := "@alice:hs", deviceId := "DEV1" })
        { blacklistUnverifiedDevices := true, errorOnUnknownDevices := true } true none
        { accessToken := "freshTok", userId := "@alice:hs", deviceId := "DEV1" }).2.1 :=
  ⟨(C3_bootstrap { username := "alice", password := "pw", homeserverUrl := "https://hs" }
      { accessToken := "cachedTok", userId := "@alice:hs", deviceId := "DEV1" }
      { blacklistUnverifiedDevices := true, errorOnUnknownDevices := true } true "x"
      { accessToken := "freshTok", userId := "@alice:hs", deviceId := "DEV1" }).2.2.1
      _ (by decide),
   (C3_bootstrap { username := "alice", password := "pw", homeserverUrl := "https://hs" }
      { accessToken := "cachedTok", userId := "@alice:hs", deviceId := "DEV1" }
      { blacklistUnverifiedDevices := true, errorOnUnknownDevices := true } true "x"
      { accessToken := "freshTok", userId := "@alice:hs", deviceId := "DEV1" }).2.2.2⟩

/-- Claim C4, counterexample to the claim as stated: when authentication
fails, `runClient` catches the error, logs it, and the returned promise
resolves normally; the failure is not surfaced to the caller. -/
theorem C4_counterexample :
    runClient { username := "alice", password := "bad", homeserverUrl := "https://hs" }
        (Except.error "AuthFailure: invalid password")
        { blacklistUnverifiedDevices := true, errorOnUnknownDevices := true } true none
        { accessToken := "t", userId := "@alice:hs", deviceId := "D" } =
      (Except.ok (), [RunAction.authenticate "alice" "https://hs"], none) := by
  rfl

/-- Claim C4, amended: an authentication failure aborts startup with no
retry (exactly one authenticate call is made, no client is created and
nothing further runs), but the error is swallowed by the catch block of
`runClient` and only logged: the returned promise resolves normally
instead of rejecting. -/
theorem C4_amended (data : Credentials) (e : String) (d : SdkDefaults)
    (ce : Bool) (cs : Option String) (fresh : LoginResult) :
    runClient data (Except.error e) d ce cs fresh =
      (Except.ok (), [RunAction.authenticate data.username data.homeserverUrl], none) := by
  rfl

/-- Claim C5: enabling encryption on a room is idempotent — on an
already-encrypted room the (spec-modelled) `ensureRoomEncrypted` adopts
the existing policy and emits no state-change request, and a second
application after any first application emits no request and yields the
same policy; the repository always calls it with the constant
`megolmConfig`. -/
theorem C5_ensureRoomEncrypted_idempotent (roomId : String) (p : RoomPolicy)
    (s : Option RoomPolicy) :
    ensureRoomEncrypted roomId (some p) megolmConfig = (p, some p, []) ∧
    ensureRoomEncrypted roomId (ensureRoomEncrypted roomId s megolmConfig).2.1 megolmConfig =
      ((ensureRoomEncrypted roomId s megolmConfig).1,
       (ensureRoomEncrypted roomId s megolmConfig).2.1, []) := by
  cases s <;> simp [ensureRoomEncrypted]

/-- Claim C6: whenever `runClient` completes client setup (authentication
succeeded, so a client was created), the resulting client state has the
permissive trust defaults: global blacklist-unverified-devices false,
error-on-unknown-devices false, and ignore_unknown_devices true, whatever
the SDK defaults were. -/
theorem C6_trust_defaults (data : Credentials) (lr : LoginResult) (d : SdkDefaults)
    (ce : Bool) (cs : Option String) (fresh : LoginResult) :
    ((runClient data (Except.ok lr) d ce cs fresh).2.2).map
        (fun c => (c.blacklistUnverifiedDevices, c.errorOnUnknownDevices,
          c.ignore_unknown_devices)) = some (false, false, true) := by
  simp [runClient]

/-- Claim C7: the "Room.timeline" handlers of `getMessage` and
`messageListener` deliver a value only for events with toStartOfTimeline
false and type "m.room.message", the delivered value being the content
body; pagination replay and non-message events are filtered out without
invoking the callback and without error. -/
theorem C7_timeline_filter (roomId timelineRoomId : String) (event : MatrixEvent)
    (toStart : Bool) (body : String) :
    (getMessage.onTimeline event toStart = HandlerOutcome.delivered body ↔
      toStart = false ∧ event.type = "m.room.message" ∧ body = event.content.body) ∧
    (messageListener.onTimeline roomId event timelineRoomId toStart =
        HandlerOutcome.delivered body →
      toStart = false ∧ event.type = "m.room.message" ∧ body = event.content.body) ∧
    ((toStart = true ∨ event.type ≠ "m.room.message") →
      getMessage.onTimeline event toStart = HandlerOutcome.ignored ∧
      messageListener.onTimeline roomId event timelineRoomId toStart =
        HandlerOutcome.ignored) := by
  unfold getMessage.onTimeline messageListener.onTimeline
  cases toStart <;> by_cases ht : event.type = "m.room.message" <;>
    by_cases hr : roomId = timelineRoomId <;> simp [ht, hr, eq_comm]

/-- Claim C7, witness: a pagination-replay event is filtered by both
handlers. -/
theorem C7_witness :
    getMessage.onTimeline
        { type := "m.room.message", content := { body := "b", msgtype := "m.text" },
          roomId := "!a:hs", decryptionFailureFlag := false } true =
      HandlerOutcome.ignored ∧
    messageListener.onTimeline "!a:hs"
        { type := "m.room.message", content := { body := "b", msgtype := "m.text" },
          roomId := "!a:hs", decryptionFailureFlag := false } "!a:hs" true =
      HandlerOutcome.ignored :=
  (C7_timeline_filter "!a:hs" "!a:hs"
      { type := "m.room.message", content := { body := "b", msgtype := "m.text" },
        roomId := "!a:hs", decryptionFailureFlag := false } true "b").2.2 (Or.inl rfl)

/-- Claim C8: the "RoomMember.membership" handler joins a room exactly when
the membership is "invite" and the invited user is this client; invites
addressed to other users never trigger a join. -/
theorem C8_autojoin (ownUserId : String) (member : RoomMember) (r : String) :
    (onRoomMemberMembership ownUserId member = some r ↔
      member.membership = "invite" ∧ member.userId = ownUserId ∧ r = member.roomId) ∧
    (member.userId ≠ ownUserId → onRoomMemberMembership ownUserId member = none) := by
  unfold onRoomMemberMembership
  by_cases h1 : member.membership = "invite" <;>
    by_cases h2 : member.userId = ownUserId <;> simp [h1, h2, eq_comm]

/-- Claim C8, witness: an invite addressed to a different user does not
trigger a join. -/
theorem C8_witness :
    onRoomMemberMembership "@me:hs"
        { membership := "invite", userId := "@other:hs", roomId := "!r:hs" } = none :=
  (C8_autojoin "@me:hs"
      { membership := "invite", userId := "@other:hs", roomId := "!r:hs" } "!r:hs").2
    (by decide)

/-- Claim C9: for an initialized client, the outcome of
`sendEncryptedMessage` (caller-visible result and external calls) is
identical whatever `isUserJoinedInRoom` returns — the membership check is
awaited but its boolean result is discarded. -/
theorem C9_membership_ignored (roomExists1 roomExists2 : Bool)
    (member1 member2 : Option RoomMember) (setEncResult : Except String Unit)
    (sendEventResult : Except String String) (roomId message : String) :
    sendEncryptedMessage true roomExists1 member1 setEncResult sendEventResult
        roomId message =
      sendEncryptedMessage true roomExists2 member2 setEncResult sendEventResult
        roomId message := by
  cases roomExists1 <;> cases roomExists2 <;> cases member1 <;> cases member2 <;>
    simp [sendEncryptedMessage, sendEncryptedMessageTry, isUserJoinedInRoom]

/-- Claim C10: `inviteUser` throws exactly when the required invite power
level of the room is strictly greater than the own power level, and issues
the invite to the external API otherwise. -/
theorem C10_invite_permission (roomId userId : String) (powerLevels : PowerLevelsContent)
    (myPowerLevel : Int) :
    (inviteUser roomId userId powerLevels myPowerLevel =
        Except.error "Error: You dont have permission to invite users" ↔
      powerLevels.invite > myPowerLevel) ∧
    (¬ powerLevels.invite > myPowerLevel →
      inviteUser roomId userId powerLevels myPowerLevel =
        Except.ok (roomId, userId)) := by
  unfold inviteUser
  by_cases h : powerLevels.invite > myPowerLevel <;> simp [h]

/-- Claim C10, witness: a concrete denied invite and a concrete allowed
invite. -/
theorem C10_witness :
    inviteUser "!r:hs" "@bob:hs" { invite := 50 } 0 =
      Except.error "Error: You dont have permission to invite users" ∧
    inviteUser "!r:hs" "@bob:hs" { invite := 0 } 50 =
      Except.ok ("!r:hs", "@bob:hs") :=
  ⟨(C10_invite_permission "!r:hs" "@bob:hs" { invite := 50 } 0).1.mpr (by decide),
   (C10_invite_permission "!r:hs" "@bob:hs" { invite := 0 } 50).2 (by decide)⟩

end BpXtrtil
